import Mathlib

/-!
Verification of the calculator and echo handlers of a small Django REST API
(`api/views.py`).  The handlers are embedded shallowly: JSON values become an
inductive type, request bodies become a record of optional fields, Python
float values are modelled by exact rationals, and exceptions become `Option`
or `Except` results.
-/

namespace DjangoCalc

/-- A JSON value as it appears in a parsed request body. -/
inductive JVal where
  | jnull
  | jbool (b : Bool)
  | jnum (q : ℚ)
  | jstr (s : String)
  | jarr (xs : List JVal)
  | jobj (fields : List (String × JVal))

/-- The parsed body of a POST to the calculator endpoint: each of the three
keys of `request.data` is either absent (`none`) or bound to a JSON value. -/
structure RequestData where
  num1 : Option JVal
  num2 : Option JVal
  operation : Option JVal

/-- The numeric value of a list of decimal digit characters. -/
def digitsVal (l : List Char) : Nat :=
  l.foldl (fun a c => a * 10 + (c.toNat - 48)) 0

/-- Decimal-literal core of Python `float(string)`: an optional sign followed
by digits with an optional fractional part.  (Exponents, `inf`/`nan` and
digit underscores of the CPython grammar are outside the fragment the
handlers are exercised on and are rejected here.) -/
def parseDecCore (cs : List Char) : Option ℚ :=
  let sb : ℚ × List Char :=
    match cs with
    | '-' :: r => (-1, r)
    | '+' :: r => (1, r)
    | r => (1, r)
  let sign := sb.1
  let body := sb.2
  let ip := body.takeWhile Char.isDigit
  let rest := body.dropWhile Char.isDigit
  match rest with
  | [] => if ip.isEmpty then none else some (sign * (digitsVal ip : ℚ))
  | '.' :: fp =>
      if fp.all Char.isDigit && !(ip.isEmpty && fp.isEmpty) then
        some (sign * ((digitsVal ip : ℚ) + (digitsVal fp : ℚ) / (10 : ℚ) ^ fp.length))
      else none
  | _ => none

/-- Python `float(string)`: surrounding whitespace is stripped, then the
decimal literal is read; a string that is not a decimal literal raises
`ValueError`, modelled as `none`. -/
def parseDecimal (s : String) : Option ℚ :=
  parseDecCore
    (((s.toList.dropWhile Char.isWhitespace).reverse.dropWhile Char.isWhitespace).reverse)

/-- Python `float(x)` on a JSON value: numbers convert exactly, booleans to
0 or 1, strings through the decimal grammar; `None`, lists and objects raise
`TypeError`.  `none` stands for a raised `ValueError`/`TypeError`. -/
def pyFloat : JVal → Option ℚ
  | .jnum q => some q
  | .jstr s => parseDecimal s
  | .jbool b => some (if b then 1 else 0)
  | .jnull => none
  | .jarr _ => none
  | .jobj _ => none

/-- Python `v == s` for a JSON value `v` and a string literal `s`: true
exactly when `v` is that string. -/
def jvalEqStr : JVal → String → Bool
  | .jstr s, t => s == t
  | _, _ => false

/-- Body of a calculator response: either the success record echoing the
inputs with the computed result, or a single error message. -/
inductive CalcBody where
  | ok (num1 num2 : ℚ) (operation : JVal) (result : ℚ)
  | err (msg : String)

/-- An HTTP response of the calculator endpoint. -/
structure CalcResponse where
  status : Nat
  body : CalcBody

/-- Recognise a success body. -/
def CalcBody.isOk : CalcBody → Bool
  | .ok _ _ _ _ => true
  | .err _ => false

/-- Recognise an error body. -/
def CalcBody.isErr : CalcBody → Bool
  | .ok _ _ _ _ => false
  | .err _ => true

/-- The 400 response produced by the `except (ValueError, TypeError)` clause. -/
def invalidInputResp : CalcResponse :=
  ⟨400, .err "Invalid input. Please provide valid numbers."⟩

/-- The `calculate` view of `api/views.py`.  `request.data.get('num1', 0)`
becomes `Option.getD` with default `0`; the two `float` conversions run
inside the `try`, so a `none` from either lands in the `except` branch; the
operation string is then dispatched by the `if`/`elif` chain. -/
def calculate (d : RequestData) : CalcResponse :=
  match pyFloat (d.num1.getD (.jnum 0)) with
  | none => invalidInputResp
  | some num1 =>
    match pyFloat (d.num2.getD (.jnum 0)) with
    | none => invalidInputResp
    | some num2 =>
      let operation := d.operation.getD (.jstr "add")
      if jvalEqStr operation "add" then
        ⟨200, .ok num1 num2 operation (num1 + num2)⟩
      else if jvalEqStr operation "subtract" then
        ⟨200, .ok num1 num2 operation (num1 - num2)⟩
      else if jvalEqStr operation "multiply" then
        ⟨200, .ok num1 num2 operation (num1 * num2)⟩
      else if jvalEqStr operation "divide" then
        if num2 = 0 then ⟨400, .err "Cannot divide by zero"⟩
        else ⟨200, .ok num1 num2 operation (num1 / num2)⟩
      else
        ⟨400, .err "Invalid operation. Use: add, subtract, multiply, or divide"⟩

/-- Python division `num1 / num2` under the fault-sensitive semantics:
dividing by zero raises `ZeroDivisionError`, modelled as `none`. -/
def pyDiv (a b : ℚ) : Option ℚ :=
  if b = 0 then none else some (a / b)

/-- The `calculate` view again, under the fault-sensitive semantics of
division: identical control flow, but the division in the divide branch is
`pyDiv`, and an uncaught `ZeroDivisionError` surfaces as `none` (the
surrounding `except` clause catches only `ValueError` and `TypeError`). -/
def calculateF (d : RequestData) : Option CalcResponse :=
  match pyFloat (d.num1.getD (.jnum 0)) with
  | none => some invalidInputResp
  | some num1 =>
    match pyFloat (d.num2.getD (.jnum 0)) with
    | none => some invalidInputResp
    | some num2 =>
      let operation := d.operation.getD (.jstr "add")
      if jvalEqStr operation "add" then
        some ⟨200, .ok num1 num2 operation (num1 + num2)⟩
      else if jvalEqStr operation "subtract" then
        some ⟨200, .ok num1 num2 operation (num1 - num2)⟩
      else if jvalEqStr operation "multiply" then
        some ⟨200, .ok num1 num2 operation (num1 * num2)⟩
      else if jvalEqStr operation "divide" then
        if num2 = 0 then some ⟨400, .err "Cannot divide by zero"⟩
        else
          match pyDiv num1 num2 with
          | none => none
          | some r => some ⟨200, .ok num1 num2 operation r⟩
      else
        some ⟨400, .err "Invalid operation. Use: add, subtract, multiply, or divide"⟩

/-- Observable global state a handler could touch; the wall clock is the
only ambient resource any view of the module reads. -/
structure World where
  clock : Nat

/-- The `calculate` view as a state-passing computation over the ambient
world.  Its body reads no global, queries no clock and performs no mutation,
so the thread of state passes through untouched around the pure dispatch. -/
def calculateW (d : RequestData) (w : World) : CalcResponse × World :=
  (calculate d, w)

/-- Body of an echo response of the `process_data` view. -/
structure EchoBody where
  received : JVal
  processed : Bool

/-- The `process_data` view of `api/views.py`: `json.loads(request.body)`
may raise (its outcome is the `Except` argument); the view has no
`try`/`except`, so a parse failure propagates unchanged to the framework,
while a parsed value is wrapped as `received`/`processed` with status 200. -/
def process_data (loadResult : Except Unit JVal) : Except Unit (Nat × EchoBody) :=
  match loadResult with
  | .error e => .error e
  | .ok data => .ok (200, ⟨data, true⟩)

/-- Helper: a failed conversion of `num1` lands in the `except` branch. -/
theorem calculate_invalid_left (d : RequestData)
    (h : pyFloat (d.num1.getD (.jnum 0)) = none) :
    calculate d = invalidInputResp := by
  unfold calculate
  rw [h]

/-- Helper: a failed conversion of `num2` lands in the `except` branch,
whatever `num1` converted to. -/
theorem calculate_invalid_right (d : RequestData)
    (h : pyFloat (d.num2.getD (.jnum 0)) = none) :
    calculate d = invalidInputResp := by
  unfold calculate
  cases hp : pyFloat (d.num1.getD (.jnum 0)) <;> simp only [h, hp]

/-- Claim C1: for every pair of rationals and each of the operations add,
subtract and multiply, `calculate` answers status 200 with the exact
arithmetic result and echoes `num1`, `num2` and `operation` unchanged. -/
theorem calculate_basic_ops_exact (a b : ℚ) :
    calculate ⟨some (.jnum a), some (.jnum b), some (.jstr "add")⟩
      = ⟨200, .ok a b (.jstr "add") (a + b)⟩
  ∧ calculate ⟨some (.jnum a), some (.jnum b), some (.jstr "subtract")⟩
      = ⟨200, .ok a b (.jstr "subtract") (a - b)⟩
  ∧ calculate ⟨some (.jnum a), some (.jnum b), some (.jstr "multiply")⟩
      = ⟨200, .ok a b (.jstr "multiply") (a * b)⟩ :=
  ⟨rfl, rfl, rfl⟩

/-- Claim C2: `calculate` with operation divide answers 200 with the exact
quotient when the divisor is nonzero, and 400 with the divide-by-zero error
when the divisor is zero, for every dividend. -/
theorem calculate_divide_spec (a b : ℚ) :
    (b ≠ 0 → calculate ⟨some (.jnum a), some (.jnum b), some (.jstr "divide")⟩
        = ⟨200, .ok a b (.jstr "divide") (a / b)⟩)
  ∧ calculate ⟨some (.jnum a), some (.jnum 0), some (.jstr "divide")⟩
      = ⟨400, .err "Cannot divide by zero"⟩ := by
  constructor
  · intro hb
    have h : calculate ⟨some (.jnum a), some (.jnum b), some (.jstr "divide")⟩
        = if b = 0 then ⟨400, .err "Cannot divide by zero"⟩
          else ⟨200, .ok a b (.jstr "divide") (a / b)⟩ := rfl
    rw [h, if_neg hb]
  · rfl

/-- Witness for C2 at dividend 10 and divisor 5. -/
theorem calculate_divide_spec_witness :
    (5 : ℚ) ≠ 0
  ∧ calculate ⟨some (.jnum 10), some (.jnum 5), some (.jstr "divide")⟩
      = ⟨200, .ok 10 5 (.jstr "divide") ((10 : ℚ) / 5)⟩ :=
  ⟨by norm_num, (calculate_divide_spec 10 5).1 (by norm_num)⟩

/-- Claim C3: when `num1` or `num2` is bound to a string that does not read
as a decimal number, `calculate` answers 400 with the generic invalid-input
message, whatever the other field and the operation are: numeric parsing
precedes dispatch, so its failure wins over the invalid-operation and
divide-by-zero errors. -/
theorem calculate_nonnumeric_precedence (d : RequestData) (s : String)
    (hmem : d.num1 = some (.jstr s) ∨ d.num2 = some (.jstr s))
    (hs : parseDecimal s = none) :
    calculate d = ⟨400, .err "Invalid input. Please provide valid numbers."⟩ := by
  rcases hmem with h | h
  · exact calculate_invalid_left d (by rw [h]; exact hs)
  · exact calculate_invalid_right d (by rw [h]; exact hs)

/-- Witness for C3: the non-numeric `num1` string wins over the would-be
divide-by-zero error. -/
theorem calculate_nonnumeric_precedence_witness :
    ((some (JVal.jstr "abc") = some (JVal.jstr "abc"))
      ∨ ((some (JVal.jnum 0) : Option JVal) = some (JVal.jstr "abc")))
  ∧ parseDecimal "abc" = none
  ∧ calculate ⟨some (.jstr "abc"), some (.jnum 0), some (.jstr "divide")⟩
      = ⟨400, .err "Invalid input. Please provide valid numbers."⟩ :=
  ⟨Or.inl rfl, by decide,
   calculate_nonnumeric_precedence
     ⟨some (.jstr "abc"), some (.jnum 0), some (.jstr "divide")⟩ "abc"
     (Or.inl rfl) (by decide)⟩

/-- Claim C4: for every operation string outside the four supported ones,
`calculate` answers 400 with the invalid-operation message, whatever the
numbers are. -/
theorem calculate_unknown_op (a b : ℚ) (op : String)
    (h : op ∉ (["add", "subtract", "multiply", "divide"] : List String)) :
    calculate ⟨some (.jnum a), some (.jnum b), some (.jstr op)⟩
      = ⟨400, .err "Invalid operation. Use: add, subtract, multiply, or divide"⟩ := by
  simp only [List.mem_cons, List.not_mem_nil, or_false, not_or] at h
  obtain ⟨h1, h2, h3, h4⟩ := h
  simp [calculate, pyFloat, jvalEqStr, h1, h2, h3, h4]

/-- Witness for C4 at the unsupported operation string modulo. -/
theorem calculate_unknown_op_witness :
    ("modulo" : String) ∉ (["add", "subtract", "multiply", "divide"] : List String)
  ∧ calculate ⟨some (.jnum 1), some (.jnum 2), some (.jstr "modulo")⟩
      = ⟨400, .err "Invalid operation. Use: add, subtract, multiply, or divide"⟩ :=
  ⟨by decide, calculate_unknown_op 1 2 "modulo" (by decide)⟩

/-- Claim C5: omitting `num1` or `num2` behaves exactly like supplying the
number 0 for that field, omitting `operation` behaves exactly like supplying
the string add, and an explicit 0 converts successfully to the value zero
rather than acting as an absent field. -/
theorem calculate_defaults (d : RequestData) :
    calculate ⟨none, d.num2, d.operation⟩
      = calculate ⟨some (.jnum 0), d.num2, d.operation⟩
  ∧ calculate ⟨d.num1, none, d.operation⟩
      = calculate ⟨d.num1, some (.jnum 0), d.operation⟩
  ∧ calculate ⟨d.num1, d.num2, none⟩
      = calculate ⟨d.num1, d.num2, some (.jstr "add")⟩
  ∧ pyFloat (.jnum 0) = some 0 :=
  ⟨rfl, rfl, rfl, rfl⟩

/-- Claim C6: the fault-sensitive run of the handler, in which a division by
zero would surface as an uncaught `ZeroDivisionError`, always succeeds and
agrees with the plain handler: the zero test precedes the division, so the
division is only evaluated with a nonzero divisor and the runtime fault is
unreachable. -/
theorem calculate_divide_guarded (d : RequestData) :
    calculateF d = some (calculate d) := by
  unfold calculate calculateF
  cases pyFloat (d.num1.getD (.jnum 0)) with
  | none => rfl
  | some num1 =>
    cases pyFloat (d.num2.getD (.jnum 0)) with
    | none => rfl
    | some num2 =>
      dsimp only
      split_ifs with h1 h2 h3 h4 h5 <;> simp [pyDiv, *]

/-- Claim C7: every request yields exactly one of a 200 success body
carrying the echoed inputs and result, or a 400 body carrying a single error
message; and under the fault-sensitive semantics no uncaught exception
escapes the handler. -/
theorem calculate_response_dichotomy (d : RequestData) :
    (((calculate d).status = 200 ∧ ∃ a b op r, (calculate d).body = .ok a b op r
        ∧ (calculate d).body.isErr = false)
     ∨ ((calculate d).status = 400 ∧ ∃ m, (calculate d).body = .err m
        ∧ (calculate d).body.isOk = false))
  ∧ (calculateF d).isSome = true := by
  constructor
  · unfold calculate
    cases pyFloat (d.num1.getD (.jnum 0)) with
    | none => exact Or.inr ⟨rfl, _, rfl, rfl⟩
    | some num1 =>
      cases pyFloat (d.num2.getD (.jnum 0)) with
      | none => exact Or.inr ⟨rfl, _, rfl, rfl⟩
      | some num2 =>
        dsimp only
        split_ifs <;>
          first
            | exact Or.inl ⟨rfl, _, _, _, _, rfl, rfl⟩
            | exact Or.inr ⟨rfl, _, rfl, rfl⟩
  · unfold calculateF
    cases pyFloat (d.num1.getD (.jnum 0)) with
    | none => rfl
    | some num1 =>
      cases pyFloat (d.num2.getD (.jnum 0)) with
      | none => rfl
      | some num2 =>
        dsimp only
        split_ifs <;> simp [pyDiv, *]

/-- Claim C8: the handler is purely functional in its input: run against any
two ambient worlds it produces the same response, and it leaves the world it
runs in untouched. -/
theorem calculate_pure (d : RequestData) (w w₁ : World) :
    (calculateW d w).1 = (calculateW d w₁).1 ∧ (calculateW d w).2 = w :=
  ⟨rfl, rfl⟩

/-- Claim C9: the echo handler wraps every successfully parsed JSON body
unchanged in a 200 response with the processed flag, and lets every parse
failure propagate unhandled to the framework. -/
theorem process_data_spec :
    (∀ v : JVal, process_data (.ok v) = .ok (200, ⟨v, true⟩))
  ∧ (∀ e : Unit, process_data (.error e) = .error e) :=
  ⟨fun _ => rfl, fun _ => rfl⟩

/-- Claim C10: defaulting applies only to absent keys, never to present null
values: a null `num1` or `num2` yields the 400 invalid-input response
instead of the default 0, and a null `operation` on otherwise valid numbers
yields the 400 invalid-operation response instead of the default add. -/
theorem calculate_null_not_defaulted :
    (∀ d : RequestData, d.num1 = some .jnull →
        calculate d = ⟨400, .err "Invalid input. Please provide valid numbers."⟩)
  ∧ (∀ d : RequestData, d.num2 = some .jnull →
        calculate d = ⟨400, .err "Invalid input. Please provide valid numbers."⟩)
  ∧ (∀ (d : RequestData) (a b : ℚ),
        pyFloat (d.num1.getD (.jnum 0)) = some a →
        pyFloat (d.num2.getD (.jnum 0)) = some b →
        d.operation = some .jnull →
        calculate d
          = ⟨400, .err "Invalid operation. Use: add, subtract, multiply, or divide"⟩) := by
  refine ⟨?_, ?_, ?_⟩
  · rintro ⟨n1, n2, op⟩ h
    cases h
    rfl
  · rintro ⟨n1, n2, op⟩ h
    cases h
    exact calculate_invalid_right _ rfl
  · rintro ⟨n1, n2, op⟩ a b h1 h2 hop
    cases hop
    simp only [] at h1 h2
    simp [calculate, h1, h2, jvalEqStr]

/-- Witness for C10: a null `num1` and a null `operation` each rejected. -/
theorem calculate_null_not_defaulted_witness :
    calculate ⟨some .jnull, some (.jnum 1), some (.jstr "add")⟩
      = ⟨400, .err "Invalid input. Please provide valid numbers."⟩
  ∧ calculate ⟨some (.jnum 1), some (.jnum 2), some .jnull⟩
      = ⟨400, .err "Invalid operation. Use: add, subtract, multiply, or divide"⟩ :=
  ⟨calculate_null_not_defaulted.1 _ rfl,
   calculate_null_not_defaulted.2.2 _ 1 2 rfl rfl rfl⟩

end DjangoCalc
